import Mathlib

/-!
Verification of the XML position-context service
(`server/services/context.py` of galaxy-language-server).

The Python source is shallowly embedded: the mutable `XmlContext` object
becomes a record threaded through the handler functions, the
`ContextFoundException` early-termination signal becomes a boolean
"found" flag that short-circuits the event loop, and the one uncaught
Python exception (`IndexError` from `document.lines[position.line]`)
becomes an `Except` error.  The external expat push parser (wrapped by
`xml.sax`) is modelled by an explicit scanner producing the event
stream the handlers consume.
-/

set_option maxRecDepth 10000

/-- Model of `pygls.workspace.Position` (zero-based line / character). -/
structure Position where
  line : Nat := 0
  character : Nat := 0
deriving Repr, DecidableEq

/-- Model of `pygls.workspace.Document`: an in-memory source text. -/
structure Document where
  source : String
deriving Repr, DecidableEq

/-- Helper for `Document.lines`: split into lines keeping the trailing
newline of each line, as Python `str.splitlines(True)` does for
newline-separated text (`""` gives no lines). -/
def splitLinesAux : List Char → List Char → List String
  | [], acc => if acc.isEmpty then [] else [acc.reverse.asString]
  | '\n' :: rest, acc => (acc.reverse ++ ['\n']).asString :: splitLinesAux rest []
  | c :: rest, acc => splitLinesAux rest (c :: acc)

/-- Model of `pygls` `Document.lines` (`self.source.splitlines(True)`). -/
def Document.lines (d : Document) : List String :=
  splitLinesAux d.source.toList []

/-- Model of Python `str.strip()` (whitespace trimmed from both ends). -/
def pyStrip (s : List Char) : List Char :=
  ((s.dropWhile Char.isWhitespace).reverse.dropWhile Char.isWhitespace).reverse

/-- `ContextTokenType`: supported types of tokens that can be found in a
document. -/
inductive ContextTokenType where
  | UNKNOWN
  | TAG
  | ATTRIBUTE_KEY
  | ATTRIBUTE_VALUE
deriving Repr, DecidableEq, BEq

/-- Model of `XsdNode` (`server/services/xsd/types.py`, not under `src/`).
Modelled from the spec: an opaque schema-node handle obtained from the
Schema Index; only its identity matters to this service. -/
structure XsdNode where
  name : String
deriving Repr, DecidableEq

/-- Model of `XsdTree` (`server/services/xsd/types.py`, not under `src/`).
Modelled from the spec: the Schema Index exposes a designated root handle
and `findByName(name) -> NodeHandle` which "may fail/return nothing",
hence an `Option`-returning lookup function. -/
structure XsdTree where
  root : XsdNode
  find_node_by_name : String → Option XsdNode

/-- `XmlContext`: the context at a given XML document position.

The last three fields model the *instance attributes* that the handlers
create dynamically (`self._context.is_tag = True`, …); `none` means the
attribute was never assigned.  In Python those assignments shadow the
identically named query methods on the object. -/
structure XmlContext where
  document_line : String := ""
  target_position : Position := {}
  is_empty : Bool := false
  token_name : Option String := none
  token_type : ContextTokenType := ContextTokenType.UNKNOWN
  node : Option XsdNode := none
  node_stack : List String := []
  is_tag : Option Bool := none
  is_attribute : Option Bool := none
  is_attribute_value : Option Bool := none
deriving Repr, DecidableEq

/-- The method `XmlContext.is_tag` of the source ("Indicates if the token
in context is a tag").  Named `is_tag_query` here because in the source
the builder's attribute assignment shadows this method under the same
name. -/
def XmlContext.is_tag_query (c : XmlContext) : Bool :=
  c.token_type == ContextTokenType.TAG

/-- The method `XmlContext.is_attribute_key` of the source. -/
def XmlContext.is_attribute_key_query (c : XmlContext) : Bool :=
  c.token_type == ContextTokenType.ATTRIBUTE_KEY

/-- The method `XmlContext.is_attribute_value` of the source.  Named with
the `_query` suffix for the same shadowing reason as `is_tag_query`. -/
def XmlContext.is_attribute_value_query (c : XmlContext) : Bool :=
  c.token_type == ContextTokenType.ATTRIBUTE_VALUE

/-- `XmlContext.update_node_definition`: updates the associated node using
the XSD tree.  `self.node_stack[-1]` raises `IndexError` exactly when the
stack is empty, which the `except IndexError` arm turns into the root
node; a non-empty stack assigns the raw lookup result. -/
def XmlContext.update_node_definition (c : XmlContext) (xsd_tree : XsdTree) : XmlContext :=
  match c.node_stack.getLast? with
  | some last_node_in_path => { c with node := xsd_tree.find_node_by_name last_node_in_path }
  | none => { c with node := some xsd_tree.root }

/-- `XmlContextParser.is_empty_document`: the trimmed source is empty or
shorter than 2 characters. -/
def is_empty_document (document : Document) : Bool :=
  let xml_content := pyStrip document.source.toList
  xml_content.isEmpty || xml_content.length < 2

/-! ## Model of the expat event stream

The source wires `xml.sax.make_parser()` (expat) with an
`ExpatLocator`; the handlers receive element-start / element-end events
with the locator at the `<` of the tag (zero-based line and column after
the `-1` adjustment in `get_current_position`), and a fatal error when
the document is malformed — message `"unclosed token"` when the input
ends inside an unfinished token, other messages otherwise.  The scanner
below reproduces that behaviour for the class of documents this service
handles (no entity expansion, simplified `<!`/`<?` constructs). -/

/-- A SAX event as delivered to the handlers. -/
inductive SaxEvent where
  | startElement (pos : Position) (tag : String) (attributes : List (String × String))
  | endElement (tag : String)
  | fatalError (pos : Position) (message : String)
deriving Repr, DecidableEq

/-- Advance a locator position over one character. -/
def advancePos (p : Position) (c : Char) : Position :=
  if c = '\n' then { line := p.line + 1, character := 0 }
  else { line := p.line, character := p.character + 1 }

/-- Advance a locator position over a list of characters. -/
def advanceOver (p : Position) (cs : List Char) : Position :=
  cs.foldl advancePos p

/-- XML name start character (simplified expat rule). -/
def isNameStart (c : Char) : Bool :=
  c.isAlpha || c = '_' || c = ':'

/-- XML name character (simplified expat rule). -/
def isNameChar (c : Char) : Bool :=
  c.isAlpha || c.isDigit || c = '_' || c = '-' || c = ':' || c = '.'

/-- XML whitespace. -/
def isXmlSpace (c : Char) : Bool :=
  c = ' ' || c = '\t' || c = '\n' || c = '\r'

/-- Result of scanning the attribute part of a start tag. -/
inductive AttrScan where
  | done (pos : Position) (rest : List Char) (attributes : List (String × String))
      (selfClosing : Bool)
  | unclosed
  | invalid
deriving Repr

/-- Scan attributes of a start tag (everything after the tag name up to
`>` or `/>`).  `unclosed` models expat's "unclosed token" (end of input
inside the tag); `invalid` models any other malformed content. -/
def scanAttrs : Nat → Position → List Char → List (String × String) → AttrScan
  | 0, _, _, _ => AttrScan.invalid
  | Nat.succ fuel, pos, cs, acc =>
    match cs with
    | [] => AttrScan.unclosed
    | '>' :: rest => AttrScan.done (advancePos pos '>') rest acc false
    | '/' :: '>' :: rest =>
      AttrScan.done (advancePos (advancePos pos '/') '>') rest acc true
    | '/' :: [] => AttrScan.unclosed
    | '/' :: _ => AttrScan.invalid
    | c :: rest =>
      if isXmlSpace c then scanAttrs fuel (advancePos pos c) rest acc
      else if isNameStart c then
        let key := cs.takeWhile isNameChar
        let rest2 := cs.drop key.length
        let pos2 := advanceOver pos key
        let ws1 := rest2.takeWhile isXmlSpace
        let rest3 := rest2.drop ws1.length
        match rest3 with
        | '=' :: rest4 =>
          let ws2 := rest4.takeWhile isXmlSpace
          let rest5 := rest4.drop ws2.length
          match rest5 with
          | [] => AttrScan.unclosed
          | q :: rest6 =>
            if q = '"' || q = '\'' then
              let value := rest6.takeWhile (fun ch => ch != q)
              let rest7 := rest6.drop value.length
              match rest7 with
              | [] => AttrScan.unclosed
              | _ :: rest8 =>
                scanAttrs fuel
                  (advanceOver pos2 (ws1 ++ '=' :: (ws2 ++ q :: (value ++ [q]))))
                  rest8 (acc ++ [(key.asString, value.asString)])
            else AttrScan.invalid
        | [] => AttrScan.unclosed
        | _ => AttrScan.invalid
      else AttrScan.invalid

/-- Skip a `<!…>` or `<?…>` construct up to the closing `>`. -/
def skipToGt : Position → List Char → Option (Position × List Char)
  | _, [] => none
  | pos, '>' :: rest => some (advancePos pos '>', rest)
  | pos, c :: rest => skipToGt (advancePos pos c) rest

/-- The main scanner loop: emits the event stream expat delivers to the
handlers.  `stack` is the scanner's own open-element stack (innermost
first), `rootClosed` records whether a top-level element was completed. -/
def saxLoop : Nat → Position → List Char → List String → Bool → List SaxEvent
  | 0, _, _, _, _ => []
  | Nat.succ fuel, pos, cs, stack, rootClosed =>
    match cs with
    | [] =>
      if stack.isEmpty && rootClosed then []
      else [SaxEvent.fatalError pos "no element found"]
    | '<' :: rest =>
      match rest with
      | [] => [SaxEvent.fatalError pos "unclosed token"]
      | '/' :: rest2 =>
        let name := rest2.takeWhile isNameChar
        let rest3 := rest2.drop name.length
        let ws := rest3.takeWhile isXmlSpace
        let rest4 := rest3.drop ws.length
        match rest4 with
        | [] => [SaxEvent.fatalError pos "unclosed token"]
        | '>' :: rest5 =>
          match stack with
          | top :: stack2 =>
            if name.asString = top then
              SaxEvent.endElement top ::
                saxLoop fuel
                  (advancePos (advanceOver pos ('<' :: '/' :: (name ++ ws))) '>')
                  rest5 stack2 (rootClosed || stack2.isEmpty)
            else [SaxEvent.fatalError pos "mismatched tag"]
          | [] => [SaxEvent.fatalError pos "junk after document element"]
        | _ => [SaxEvent.fatalError pos "not well-formed (invalid token)"]
      | '!' :: rest2 =>
        match skipToGt (advanceOver pos ['<', '!']) rest2 with
        | some (pos2, rest3) => saxLoop fuel pos2 rest3 stack rootClosed
        | none => [SaxEvent.fatalError pos "unclosed token"]
      | '?' :: rest2 =>
        match skipToGt (advanceOver pos ['<', '?']) rest2 with
        | some (pos2, rest3) => saxLoop fuel pos2 rest3 stack rootClosed
        | none => [SaxEvent.fatalError pos "unclosed token"]
      | c :: _ =>
        if rootClosed && stack.isEmpty then
          [SaxEvent.fatalError pos "junk after document element"]
        else if isNameStart c then
          let name := rest.takeWhile isNameChar
          let restN := rest.drop name.length
          let posN := advanceOver pos ('<' :: name)
          match scanAttrs fuel posN restN [] with
          | AttrScan.done pos2 rest2 attrs selfClosing =>
            if selfClosing then
              SaxEvent.startElement pos name.asString attrs ::
                SaxEvent.endElement name.asString ::
                  saxLoop fuel pos2 rest2 stack (rootClosed || stack.isEmpty)
            else
              SaxEvent.startElement pos name.asString attrs ::
                saxLoop fuel pos2 rest2 (name.asString :: stack) rootClosed
          | AttrScan.unclosed => [SaxEvent.fatalError pos "unclosed token"]
          | AttrScan.invalid =>
            [SaxEvent.fatalError pos "not well-formed (invalid token)"]
        else [SaxEvent.fatalError pos "not well-formed (invalid token)"]
    | c :: rest => saxLoop fuel (advancePos pos c) rest stack rootClosed

/-- The event stream expat produces for a whole source text. -/
def saxEvents (source : String) : List SaxEvent :=
  saxLoop (source.length * 4 + 8) {} source.toList [] false

/-! ## The SAX handlers, translated from the source

`ContextFoundException` is modelled by the `Bool` component of each
handler's result: `true` means the exception was raised (the event loop
stops and the parse call absorbs it). -/

/-- The attribute loop of
`ContextBuilderHandler._build_context_from_element_line` (`for attr_name,
attr_value in attributes.items(): …`), with `accum` the running offset. -/
def ContextBuilderHandler.attrLoop (ctx : XmlContext) (target_offset : Nat) :
    Nat → List (String × String) → XmlContext × Bool
  | _, [] => (ctx, false)
  | accum, (attr_name, attr_value) :: rest =>
    let attr_start := accum + 1
    let attr_end := attr_start + attr_name.length
    if attr_start ≤ target_offset ∧ target_offset ≤ attr_end then
      ({ ctx with is_attribute := some true, token_name := some attr_name }, true)
    else
      let attr_value_start := attr_end + 2
      let attr_value_end := attr_value_start + attr_value.length
      if attr_value_start ≤ target_offset ∧ target_offset ≤ attr_value_end then
        ({ ctx with is_attribute_value := some true, token_name := some attr_value }, true)
      else ContextBuilderHandler.attrLoop ctx target_offset attr_value_end rest

/-- `ContextBuilderHandler._build_context_from_element_line`. -/
def ContextBuilderHandler._build_context_from_element_line (ctx : XmlContext)
    (start_position : Nat) (tag : String) (attributes : List (String × String)) :
    XmlContext × Bool :=
  let target_offset := ctx.target_position.character
  let tag_offset := start_position + tag.length
  if start_position < target_offset ∧ target_offset ≤ tag_offset then
    ({ ctx with is_tag := some true, token_name := some tag }, true)
  else
    ContextBuilderHandler.attrLoop ctx target_offset (tag_offset + 1) attributes

/-- `ContextBuilderHandler.startElement`: push the tag on the node stack,
then classify only when the locator line is the target line. -/
def ContextBuilderHandler.startElement (ctx : XmlContext) (current_position : Position)
    (tag : String) (attributes : List (String × String)) : XmlContext × Bool :=
  let ctx := { ctx with node_stack := ctx.node_stack ++ [tag] }
  if current_position.line = ctx.target_position.line then
    ContextBuilderHandler._build_context_from_element_line ctx
      current_position.character tag attributes
  else (ctx, false)

/-- `ContextBuilderHandler.endElement`: `self._context.node_stack.pop(-1)`
(expat only delivers end events matching a previous start, so the stack
is non-empty here and `pop(-1)` drops the last entry). -/
def ContextBuilderHandler.endElement (ctx : XmlContext) : XmlContext :=
  { ctx with node_stack := ctx.node_stack.dropLast }

/-- Model of `re.search(START_TAG_REGEX, line, re.DOTALL)` for
`START_TAG_REGEX = "<([a-z]+)[ \n]?"`: the leftmost `<` followed by at
least one lowercase letter; returns the start index, end index and text
of group 1 (the maximal lowercase run).  The optional trailing space or
newline does not affect group 1. -/
def searchStartTag : List Char → Nat → Option (Nat × Nat × String)
  | [], _ => none
  | '<' :: rest, i =>
    match rest with
    | c :: _ =>
      if c.isLower then
        let name := rest.takeWhile Char.isLower
        some (i + 1, i + 1 + name.length, name.asString)
      else searchStartTag rest (i + 1)
    | [] => none
  | _ :: rest, i => searchStartTag rest (i + 1)

/-- One attribute match of `ATTR_KEY_VALUE_REGEX`: key span (group 1),
value span (group 2), texts, and the index just past the whole match. -/
structure AttrMatch where
  keyStart : Nat
  keyEnd : Nat
  key : String
  valueStart : Nat
  valueEnd : Nat
  value : String
  matchEnd : Nat
deriving Repr, DecidableEq

/-- Try to match `ATTR_KEY_VALUE_REGEX = " ([a-z]*)=\"([\w.]*)[\"]?"` at
index `i` of the character list `cs` (which is the suffix starting at
`i`).  The pattern is a space, a (possibly empty) lowercase run, `=`,
`"`, a run of word characters and dots, and an optional closing quote. -/
def attrMatchAt (cs : List Char) (i : Nat) : Option AttrMatch :=
  match cs with
  | ' ' :: rest =>
    let key := rest.takeWhile Char.isLower
    let rest2 := rest.drop key.length
    match rest2 with
    | '=' :: '"' :: rest3 =>
      let value := rest3.takeWhile (fun c => c.isAlphanum || c = '_' || c = '.')
      let rest4 := rest3.drop value.length
      let valueStart := i + 1 + key.length + 2
      let valueEnd := valueStart + value.length
      let matchEnd := if rest4.head? = some '"' then valueEnd + 1 else valueEnd
      some { keyStart := i + 1, keyEnd := i + 1 + key.length, key := key.asString,
             valueStart := valueStart, valueEnd := valueEnd, value := value.asString,
             matchEnd := matchEnd }
    | _ => none
  | _ => none

/-- Model of `re.finditer(ATTR_KEY_VALUE_REGEX, line, re.DOTALL)`:
leftmost matches, scanning resumes just past each match. -/
def findAttrMatches : Nat → List Char → Nat → List AttrMatch
  | 0, _, _ => []
  | Nat.succ fuel, cs, i =>
    match cs with
    | [] => []
    | _ :: rest =>
      match attrMatchAt cs i with
      | some m => m :: findAttrMatches fuel (cs.drop (m.matchEnd - i)) m.matchEnd
      | none => findAttrMatches fuel rest (i + 1)

/-- `ContextParseErrorHandler._try_get_tag_context_at_line_position`. -/
def ContextParseErrorHandler._try_get_tag_context_at_line_position
    (ctx : XmlContext) (target_offset : Nat) : XmlContext × Bool :=
  match searchStartTag ctx.document_line.toList 0 with
  | some (s, e, name) =>
    if s ≤ target_offset ∧ target_offset ≤ e then
      ({ ctx with is_tag := some true, token_name := some name }, true)
    else (ctx, false)
  | none => (ctx, false)

/-- The match loop of
`ContextParseErrorHandler._try_get_attribute_context_at_line_position`:
for each match in order, the key span is tried before the value span. -/
def ContextParseErrorHandler.attrMatchLoop (ctx : XmlContext) (target_offset : Nat) :
    List AttrMatch → XmlContext × Bool
  | [] => (ctx, false)
  | m :: rest =>
    if m.keyStart ≤ target_offset ∧ target_offset ≤ m.keyEnd then
      ({ ctx with is_attribute := some true, token_name := some m.key }, true)
    else if m.valueStart ≤ target_offset ∧ target_offset ≤ m.valueEnd then
      ({ ctx with is_attribute_value := some true, token_name := some m.value }, true)
    else ContextParseErrorHandler.attrMatchLoop ctx target_offset rest

/-- `ContextParseErrorHandler._try_get_attribute_context_at_line_position`. -/
def ContextParseErrorHandler._try_get_attribute_context_at_line_position
    (ctx : XmlContext) (target_offset : Nat) : XmlContext × Bool :=
  ContextParseErrorHandler.attrMatchLoop ctx target_offset
    (findAttrMatches (ctx.document_line.length + 1) ctx.document_line.toList 0)

/-- `ContextParseErrorHandler._try_process_context_from_unclosed_token`
(the `start_offset` parameter is received but never read in the source). -/
def ContextParseErrorHandler._try_process_context_from_unclosed_token
    (ctx : XmlContext) (start_offset : Nat) : XmlContext × Bool :=
  let _ := start_offset
  let target_offset := ctx.target_position.character
  let r := ContextParseErrorHandler._try_get_tag_context_at_line_position ctx target_offset
  if r.2 then r
  else ContextParseErrorHandler._try_get_attribute_context_at_line_position r.1 target_offset

/-- `ContextParseErrorHandler.fatalError`: only the `"unclosed token"`
message triggers recovery; any other fault is ignored. -/
def ContextParseErrorHandler.fatalError (ctx : XmlContext) (errPos : Position)
    (message : String) : XmlContext × Bool :=
  if message = "unclosed token" then
    ContextParseErrorHandler._try_process_context_from_unclosed_token ctx errPos.character
  else (ctx, false)

/-- Dispatch one SAX event to the registered handlers.  The `Bool` is
`true` when `ContextFoundException` was raised by the handler. -/
def processEvent (ctx : XmlContext) : SaxEvent → XmlContext × Bool
  | SaxEvent.startElement pos tag attrs => ContextBuilderHandler.startElement ctx pos tag attrs
  | SaxEvent.endElement _ => (ContextBuilderHandler.endElement ctx, false)
  | SaxEvent.fatalError pos msg => ContextParseErrorHandler.fatalError ctx pos msg

/-- Feed the event stream to the handlers; a raised
`ContextFoundException` aborts the remaining events (it is caught by
`XmlContextParser.parse`). -/
def runEvents : List SaxEvent → XmlContext → XmlContext
  | [], ctx => ctx
  | e :: rest, ctx =>
    let r := processEvent ctx e
    if r.2 then r.1 else runEvents rest r.1

/-- A Python exception escaping to the caller. -/
inductive PyError where
  | indexError
deriving Repr, DecidableEq

/-- Model of the `XmlContextParser` object (its only attribute is
`self._document`, set at the start of every `parse` call). -/
structure XmlContextParser where
  _document : Option Document := none
deriving Repr, DecidableEq

/-- `XmlContextParser.parse`.  The `except ContextFoundException: pass`
is the short-circuit inside `runEvents`; the *uncaught* `IndexError`
raised by `document.lines[position.line]` on an out-of-range line index
surfaces as `Except.error`. -/
def XmlContextParser.parse (self : XmlContextParser) (document : Document)
    (position : Position) : Except PyError XmlContext × XmlContextParser :=
  let self := { self with _document := some document }
  if is_empty_document document then
    (Except.ok { is_empty := true }, self)
  else
    match (Document.lines document).get? position.line with
    | none => (Except.error PyError.indexError, self)
    | some context_line =>
      let context : XmlContext := { document_line := context_line, target_position := position }
      (Except.ok (runEvents (saxEvents document.source) context), self)

/-- Model of the `XmlContextService` object (holds only the read-only
schema index). -/
structure XmlContextService where
  xsd_tree : XsdTree

/-- `XmlContextService.get_xml_context`: build a fresh parser, parse, and
attach the schema node.  The service state is returned explicitly to
show no mutation is carried between calls; an exception escaping `parse`
escapes this method as well. -/
def XmlContextService.get_xml_context (self : XmlContextService) (document : Document)
    (position : Position) : Except PyError XmlContext × XmlContextService :=
  let parser : XmlContextParser := {}
  match (parser.parse document position).1 with
  | Except.error e => (Except.error e, self)
  | Except.ok context =>
    (Except.ok (context.update_node_definition self.xsd_tree), self)

/-- The spec's words for the `isEmpty` condition ("the whole document is
empty or whitespace-only"), stated independently of the code so the two
can be compared. -/
def spec_whitespace_only_document (d : Document) : Bool :=
  d.source.toList.all Char.isWhitespace

/-- A concrete schema-node handle used in concrete instantiations. -/
def demoNode : XsdNode := ⟨"galaxy"⟩

/-- A concrete Schema Index whose name lookup always fails. -/
def demoTree : XsdTree := ⟨demoNode, fun _ => none⟩

/-- A concrete context service over `demoTree`. -/
def demoService : XmlContextService := ⟨demoTree⟩

/-- The fields of `XmlContext` that no SAX handler ever writes: handlers
only touch `token_name`, `node_stack` and the three dynamic flag
attributes. -/
def PreservesCore (a b : XmlContext) : Prop :=
  b.document_line = a.document_line ∧ b.target_position = a.target_position ∧
  b.is_empty = a.is_empty ∧ b.token_type = a.token_type ∧ b.node = a.node

/-- `PreservesCore` is reflexive. -/
theorem preservesCore_refl (a : XmlContext) : PreservesCore a a :=
  ⟨rfl, rfl, rfl, rfl, rfl⟩

/-- `PreservesCore` is transitive. -/
theorem preservesCore_trans {a b c : XmlContext}
    (h1 : PreservesCore a b) (h2 : PreservesCore b c) : PreservesCore a c :=
  ⟨h2.1.trans h1.1, h2.2.1.trans h1.2.1, h2.2.2.1.trans h1.2.2.1,
   h2.2.2.2.1.trans h1.2.2.2.1, h2.2.2.2.2.trans h1.2.2.2.2⟩

/-- The attribute loop of the builder only writes `is_attribute`,
`is_attribute_value` and `token_name`. -/
theorem attrLoop_preservesCore (target_offset : Nat) (attrs : List (String × String)) :
    ∀ (ctx : XmlContext) (accum : Nat),
      PreservesCore ctx (ContextBuilderHandler.attrLoop ctx target_offset accum attrs).1 := by
  induction attrs with
  | nil => intro ctx accum; exact preservesCore_refl ctx
  | cons hd rest ih =>
    intro ctx accum
    obtain ⟨n, v⟩ := hd
    simp only [ContextBuilderHandler.attrLoop]
    split_ifs
    · exact ⟨rfl, rfl, rfl, rfl, rfl⟩
    · exact ⟨rfl, rfl, rfl, rfl, rfl⟩
    · exact ih ctx _

/-- `_build_context_from_element_line` only writes `is_tag`,
`is_attribute`, `is_attribute_value` and `token_name`. -/
theorem build_preservesCore (ctx : XmlContext) (sp : Nat) (tag : String)
    (attrs : List (String × String)) :
    PreservesCore ctx
      (ContextBuilderHandler._build_context_from_element_line ctx sp tag attrs).1 := by
  unfold ContextBuilderHandler._build_context_from_element_line
  dsimp only
  split_ifs
  · exact ⟨rfl, rfl, rfl, rfl, rfl⟩
  · exact attrLoop_preservesCore _ _ ctx _

/-- `startElement` only writes `node_stack` and the fields the builder
writes. -/
theorem startElement_preservesCore (ctx : XmlContext) (pos : Position) (tag : String)
    (attrs : List (String × String)) :
    PreservesCore ctx (ContextBuilderHandler.startElement ctx pos tag attrs).1 := by
  unfold ContextBuilderHandler.startElement
  have hstep : PreservesCore ctx { ctx with node_stack := ctx.node_stack ++ [tag] } :=
    ⟨rfl, rfl, rfl, rfl, rfl⟩
  dsimp only
  split_ifs
  · exact preservesCore_trans hstep (build_preservesCore _ pos.character tag attrs)
  · exact hstep

/-- The tag-recovery attempt only writes `is_tag` and `token_name`. -/
theorem tagRecovery_preservesCore (ctx : XmlContext) (target_offset : Nat) :
    PreservesCore ctx
      (ContextParseErrorHandler._try_get_tag_context_at_line_position ctx target_offset).1 := by
  unfold ContextParseErrorHandler._try_get_tag_context_at_line_position
  rcases searchStartTag ctx.document_line.toList 0 with _ | ⟨s, e, name⟩
  · exact preservesCore_refl ctx
  · simp only
    split_ifs
    · exact ⟨rfl, rfl, rfl, rfl, rfl⟩
    · exact preservesCore_refl ctx

/-- The attribute-recovery match loop only writes `is_attribute`,
`is_attribute_value` and `token_name`. -/
theorem attrMatchLoop_preservesCore (target_offset : Nat) (ms : List AttrMatch) :
    ∀ ctx : XmlContext,
      PreservesCore ctx (ContextParseErrorHandler.attrMatchLoop ctx target_offset ms).1 := by
  induction ms with
  | nil => intro ctx; exact preservesCore_refl ctx
  | cons m rest ih =>
    intro ctx
    simp only [ContextParseErrorHandler.attrMatchLoop]
    split_ifs
    · exact ⟨rfl, rfl, rfl, rfl, rfl⟩
    · exact ⟨rfl, rfl, rfl, rfl, rfl⟩
    · exact ih ctx

/-- The whole unclosed-token recovery only writes the flag attributes and
`token_name`. -/
theorem recovery_preservesCore (ctx : XmlContext) (start_offset : Nat) :
    PreservesCore ctx
      (ContextParseErrorHandler._try_process_context_from_unclosed_token ctx start_offset).1 := by
  unfold ContextParseErrorHandler._try_process_context_from_unclosed_token
  simp only
  split_ifs
  · exact tagRecovery_preservesCore ctx ctx.target_position.character
  · exact preservesCore_trans
      (tagRecovery_preservesCore ctx ctx.target_position.character)
      (by
        unfold ContextParseErrorHandler._try_get_attribute_context_at_line_position
        exact attrMatchLoop_preservesCore _ _ _)

/-- The fatal-error handler only writes the flag attributes and
`token_name`. -/
theorem fatalError_preservesCore (ctx : XmlContext) (pos : Position) (msg : String) :
    PreservesCore ctx (ContextParseErrorHandler.fatalError ctx pos msg).1 := by
  unfold ContextParseErrorHandler.fatalError
  split_ifs
  · exact recovery_preservesCore ctx _
  · exact preservesCore_refl ctx

/-- No handler writes `document_line`, `target_position`, `is_empty`,
`token_type` or `node`. -/
theorem processEvent_preservesCore (ctx : XmlContext) (e : SaxEvent) :
    PreservesCore ctx (processEvent ctx e).1 := by
  cases e with
  | startElement pos tag attrs => exact startElement_preservesCore ctx pos tag attrs
  | endElement tag => exact ⟨rfl, rfl, rfl, rfl, rfl⟩
  | fatalError pos msg => exact fatalError_preservesCore ctx pos msg

/-- The event loop preserves the untouched fields of the context. -/
theorem runEvents_preservesCore (events : List SaxEvent) :
    ∀ ctx : XmlContext, PreservesCore ctx (runEvents events ctx) := by
  induction events with
  | nil => intro ctx; exact preservesCore_refl ctx
  | cons e rest ih =>
    intro ctx
    simp only [runEvents]
    split_ifs
    · exact processEvent_preservesCore ctx e
    · exact preservesCore_trans (processEvent_preservesCore ctx e) (ih _)

/-- The code's emptiness test is equivalent to "trimmed length < 2". -/
theorem is_empty_document_iff (d : Document) :
    is_empty_document d = true ↔ (pyStrip d.source.toList).length < 2 := by
  unfold is_empty_document
  simp only [Bool.or_eq_true, List.isEmpty_iff, decide_eq_true_eq]
  constructor
  · rintro (h | h)
    · have h2 : pyStrip d.source.data = [] := h
      simp [h2]
    · exact h
  · exact fun h => Or.inr h

/-- Case analysis of a successful `parse` call: either the document was
empty (default context) or the cursor line existed and the event loop
ran from the seeded context. -/
theorem parse_ok_cases (prs : XmlContextParser) (d : Document) (p : Position)
    (ctx : XmlContext) (prs2 : XmlContextParser)
    (h : XmlContextParser.parse prs d p = (Except.ok ctx, prs2)) :
    (is_empty_document d = true ∧ ctx = { is_empty := true }) ∨
    (is_empty_document d = false ∧ ∃ line, (Document.lines d).get? p.line = some line ∧
      ctx = runEvents (saxEvents d.source) { document_line := line, target_position := p }) := by
  unfold XmlContextParser.parse at h
  split_ifs at h with hemp
  · simp only [Prod.mk.injEq, Except.ok.injEq] at h
    exact Or.inl ⟨hemp, h.1.symm⟩
  · refine Or.inr ⟨by simpa using hemp, ?_⟩
    split at h
    · simp at h
    · rename_i line hline
      simp only [Prod.mk.injEq, Except.ok.injEq] at h
      exact ⟨line, hline, h.1.symm⟩

/-- `get_xml_context` is `parse` with a fresh parser followed by the
schema-node attachment; the service itself is returned unchanged. -/
theorem get_xml_context_eq (svc : XmlContextService) (d : Document) (p : Position) :
    svc.get_xml_context d p =
      ((XmlContextParser.parse {} d p).1.map
        (fun c => c.update_node_definition svc.xsd_tree), svc) := by
  unfold XmlContextService.get_xml_context
  rcases h : (XmlContextParser.parse {} d p).1 with e | c <;> simp [h, Except.map]

/-- Elimination form for a successful `get_xml_context` call. -/
theorem get_xml_context_ok_elim (svc : XmlContextService) (d : Document) (p : Position)
    (ctx : XmlContext) (s : XmlContextService)
    (h : svc.get_xml_context d p = (Except.ok ctx, s)) :
    ∃ c0 prs2, XmlContextParser.parse {} d p = (Except.ok c0, prs2) ∧
      ctx = c0.update_node_definition svc.xsd_tree := by
  rw [get_xml_context_eq] at h
  simp only [Prod.mk.injEq] at h
  obtain ⟨h1, _⟩ := h
  rcases he : (XmlContextParser.parse {} d p).1 with e | c0
  · rw [he] at h1; simp [Except.map] at h1
  · rw [he] at h1
    simp only [Except.map, Except.ok.injEq] at h1
    refine ⟨c0, (XmlContextParser.parse {} d p).2, ?_, h1.symm⟩
    rw [← he]

/-- `update_node_definition` writes only `node`. -/
theorem update_node_definition_preserves (c : XmlContext) (t : XsdTree) :
    (c.update_node_definition t).document_line = c.document_line ∧
    (c.update_node_definition t).target_position = c.target_position ∧
    (c.update_node_definition t).is_empty = c.is_empty ∧
    (c.update_node_definition t).token_name = c.token_name ∧
    (c.update_node_definition t).token_type = c.token_type ∧
    (c.update_node_definition t).node_stack = c.node_stack := by
  unfold XmlContext.update_node_definition
  rcases c.node_stack.getLast? with _ | last <;> exact ⟨rfl, rfl, rfl, rfl, rfl, rfl⟩

/-- The `node` written by `update_node_definition`. -/
theorem update_node_definition_node (c : XmlContext) (t : XsdTree) :
    (c.update_node_definition t).node =
      match c.node_stack.getLast? with
      | some last => t.find_node_by_name last
      | none => some t.root := by
  unfold XmlContext.update_node_definition
  rcases c.node_stack.getLast? with _ | last <;> rfl

/-- A successfully parsed context always carries `token_type = UNKNOWN`:
the constructor is the only place the field is assigned, always with the
default, and no handler writes it. -/
theorem parse_ok_token_type_unknown (prs : XmlContextParser) (d : Document) (p : Position)
    (ctx : XmlContext) (prs2 : XmlContextParser)
    (h : XmlContextParser.parse prs d p = (Except.ok ctx, prs2)) :
    ctx.token_type = ContextTokenType.UNKNOWN := by
  rcases parse_ok_cases prs d p ctx prs2 h with ⟨_, rfl⟩ | ⟨_, line, _, rfl⟩
  · rfl
  · exact (runEvents_preservesCore (saxEvents d.source)
      { document_line := line, target_position := p }).2.2.2.1

/-- A successfully parsed context has `is_empty` equal to the emptiness
test: the empty branch sets it, the parse branch leaves the seeded
`false`. -/
theorem parse_ok_is_empty (prs : XmlContextParser) (d : Document) (p : Position)
    (ctx : XmlContext) (prs2 : XmlContextParser)
    (h : XmlContextParser.parse prs d p = (Except.ok ctx, prs2)) :
    ctx.is_empty = is_empty_document d := by
  rcases parse_ok_cases prs d p ctx prs2 h with ⟨hemp, rfl⟩ | ⟨hemp, line, _, rfl⟩
  · rw [hemp]
  · rw [hemp]
    exact (runEvents_preservesCore (saxEvents d.source)
      { document_line := line, target_position := p }).2.2.1

/-- Any successfully returned context of the public operation carries
`token_type = UNKNOWN` (shared by the C3 and C10 results). -/
theorem get_ok_token_type_unknown (svc : XmlContextService) (d : Document) (p : Position)
    (ctx : XmlContext) (s : XmlContextService)
    (h : svc.get_xml_context d p = (Except.ok ctx, s)) :
    ctx.token_type = ContextTokenType.UNKNOWN := by
  obtain ⟨c0, prs2, hp, hctx⟩ := get_xml_context_ok_elim svc d p ctx s h
  rw [hctx, (update_node_definition_preserves c0 svc.xsd_tree).2.2.2.2.1]
  exact parse_ok_token_type_unknown _ d p c0 prs2 hp

/-- C1: the claim says the public resolution operation never raises for
*every* position, including positions whose line index is outside the
document's line range.  That is false: `document.lines[position.line]`
raises an uncaught `IndexError` there.  This counterexample exhibits the
escape on a non-empty document and an out-of-range line. -/
theorem C1_counterexample :
    (XmlContextService.get_xml_context demoService ⟨"<a>"⟩ ⟨1, 0⟩).1
      = Except.error PyError.indexError := rfl

/-- C1 (amended): the resolution operation returns a Context (absorbing
the early-termination signal and every parse fault) exactly when the
document is empty or the position's line index is within the document's
line range; only the out-of-range line access escapes. -/
theorem C1_resolve_ok_iff_line_in_range (svc : XmlContextService) (d : Document)
    (p : Position) :
    (∃ ctx, (svc.get_xml_context d p).1 = Except.ok ctx) ↔
      (is_empty_document d = true ∨ p.line < (Document.lines d).length) := by
  rw [get_xml_context_eq]
  unfold XmlContextParser.parse
  dsimp only
  split_ifs with hemp
  · constructor
    · intro _
      exact Or.inl hemp
    · intro _
      exact ⟨_, rfl⟩
  · simp only [hemp, Bool.false_eq_true, false_or]
    rcases hl : (Document.lines d).get? p.line with _ | line
    · simp only [hl]
      constructor
      · rintro ⟨ctx, hc⟩
        simp [Except.map] at hc
      · intro hlt
        have hnone := List.get?_eq_none.mp hl
        exact absurd hlt (by omega)
    · simp only [hl]
      constructor
      · intro _
        exact (List.get?_eq_some.mp hl).choose
      · intro _
        exact ⟨_, rfl⟩

/-- C2: for `<root><a attr="val">` with the cursor in the tag-name span
of `root` (exclusive at the `<` at index 0, inclusive at the end
`0 + len "root" = 4`), the code sets the dynamic attribute `is_tag` and
`token_name = "root"`, but `token_type` remains `UNKNOWN` — the claim's
`tokenType == Tag` never happens because no handler assigns the field. -/
theorem C2_tag_span_flag_not_token_type (c : Nat) (h1 : 0 < c) (h2 : c ≤ 4) :
    ((XmlContextParser.parse {} ⟨"<root><a attr=\"val\">"⟩ ⟨0, c⟩).1.toOption.map
        (fun ctx => (ctx.token_name, ctx.is_tag, ctx.token_type)))
      = some (some "root", some true, ContextTokenType.UNKNOWN) := by
  interval_cases c <;> rfl

/-- C2 witness: the theorem applied at the concrete cursor character 2. -/
theorem C2_witness :
    0 < 2 ∧ 2 ≤ 4 ∧
    ((XmlContextParser.parse {} ⟨"<root><a attr=\"val\">"⟩ ⟨0, 2⟩).1.toOption.map
        (fun ctx => (ctx.token_name, ctx.is_tag, ctx.token_type)))
      = some (some "root", some true, ContextTokenType.UNKNOWN) :=
  ⟨by decide, by decide, C2_tag_span_flag_not_token_type 2 (by decide) (by decide)⟩

/-- C3: for every document and position, the returned context has
`token_type = UNKNOWN` — the field is assigned only in the constructor
with its default; the handlers create the attributes `is_tag`,
`is_attribute` and `is_attribute_value` instead.  Consequently the
classification query methods all answer `false`. -/
theorem C3_token_type_always_unknown (svc : XmlContextService) (d : Document)
    (p : Position) (ctx : XmlContext) (s : XmlContextService)
    (h : svc.get_xml_context d p = (Except.ok ctx, s)) :
    ctx.token_type = ContextTokenType.UNKNOWN ∧
    ctx.is_tag_query = false ∧ ctx.is_attribute_key_query = false ∧
    ctx.is_attribute_value_query = false := by
  have ht := get_ok_token_type_unknown svc d p ctx s h
  refine ⟨ht, ?_, ?_, ?_⟩ <;>
    simp only [XmlContext.is_tag_query, XmlContext.is_attribute_key_query,
      XmlContext.is_attribute_value_query, ht] <;> rfl

/-- C3 witness: the theorem applied at `<c></c>` with the cursor at the
start of the line. -/
theorem C3_witness :
    (XmlContextService.get_xml_context demoService ⟨"<c></c>"⟩ ⟨0, 0⟩
        = (Except.ok { document_line := "<c></c>", node := some demoNode }, demoService)) ∧
    (({ document_line := "<c></c>", node := some demoNode } : XmlContext).token_type
        = ContextTokenType.UNKNOWN ∧
      ({ document_line := "<c></c>", node := some demoNode } : XmlContext).is_tag_query = false ∧
      ({ document_line := "<c></c>", node := some demoNode } : XmlContext).is_attribute_key_query
        = false ∧
      ({ document_line := "<c></c>", node := some demoNode } :
          XmlContext).is_attribute_value_query = false) :=
  ⟨rfl, C3_token_type_always_unknown demoService ⟨"<c></c>"⟩ ⟨0, 0⟩ _ _ rfl⟩

/-- C4: for the truncated line `<ro` with the cursor just after `ro`,
expat reports the fatal fault "unclosed token" and the recovery resolver
pattern-matches the line; it recovers `token_name = "ro"` and sets the
dynamic attribute `is_tag`, but `token_type` remains `UNKNOWN` — the
claim's `tokenType == Tag` is never assigned. -/
theorem C4_unclosed_token_recovery :
    ((XmlContextParser.parse {} ⟨"<ro"⟩ ⟨0, 3⟩).1.toOption.map
        (fun ctx => (ctx.token_name, ctx.is_tag, ctx.token_type)))
      = some (some "ro", some true, ContextTokenType.UNKNOWN) := rfl

/-- C5: for `<root><a attr="val">` with the cursor in the attribute-key
span `[9, 13]` (element start 6, `<` and separating-space overhead), the
code sets `token_name = "attr"` and the dynamic attribute
`is_attribute` (note: not `is_attribute_key`), while `token_type`
remains `UNKNOWN` — the claim's `tokenType == AttributeKey` never
happens. -/
theorem C5_attr_key_span_flag_not_token_type (c : Nat) (h1 : 9 ≤ c) (h2 : c ≤ 13) :
    ((XmlContextParser.parse {} ⟨"<root><a attr=\"val\">"⟩ ⟨0, c⟩).1.toOption.map
        (fun ctx => (ctx.token_name, ctx.is_attribute, ctx.token_type)))
      = some (some "attr", some true, ContextTokenType.UNKNOWN) := by
  interval_cases c <;> rfl

/-- C5 witness: the theorem applied at the concrete cursor character 10. -/
theorem C5_witness :
    9 ≤ 10 ∧ 10 ≤ 13 ∧
    ((XmlContextParser.parse {} ⟨"<root><a attr=\"val\">"⟩ ⟨0, 10⟩).1.toOption.map
        (fun ctx => (ctx.token_name, ctx.is_attribute, ctx.token_type)))
      = some (some "attr", some true, ContextTokenType.UNKNOWN) :=
  ⟨by decide, by decide, C5_attr_key_span_flag_not_token_type 10 (by decide) (by decide)⟩

/-- C6: for `<a><b><c></c></b></a>` with the cursor inside the tag-name
span of `c` (the only such character index is 7), the ancestor stack of
the returned context is exactly `["a", "b", "c"]`: every element start
pushed its name and no enclosing element was popped before the early
termination. -/
theorem C6_ancestor_stack_abc :
    ((XmlContextParser.parse {} ⟨"<a><b><c></c></b></a>"⟩ ⟨0, 7⟩).1.toOption.map
        (fun ctx => ctx.node_stack)) = some ["a", "b", "c"] := rfl

/-- C7: the claim's "isEmpty iff empty or whitespace-only" is false: the
single-character document `"a"` is neither empty nor whitespace-only,
yet the code short-circuits it as empty (trimmed length `1 < 2`). -/
theorem C7_counterexample :
    (XmlContextParser.parse {} ⟨"a"⟩ ⟨0, 0⟩).1 = Except.ok { is_empty := true } ∧
    spec_whitespace_only_document ⟨"a"⟩ = false :=
  ⟨rfl, rfl⟩

/-- C7 (amended): a successfully parsed context has `is_empty = true`
exactly when the trimmed document is shorter than 2 characters (empty,
whitespace-only, or a single non-whitespace character), and in that case
every other field keeps its default and no parse is attempted. -/
theorem C7_is_empty_iff_trimmed_short (prs : XmlContextParser) (d : Document)
    (p : Position) (ctx : XmlContext) (prs2 : XmlContextParser)
    (h : XmlContextParser.parse prs d p = (Except.ok ctx, prs2)) :
    (ctx.is_empty = true ↔ (pyStrip d.source.toList).length < 2) ∧
    (ctx.is_empty = true → ctx = { is_empty := true }) := by
  have hie := parse_ok_is_empty prs d p ctx prs2 h
  constructor
  · rw [hie]
    exact is_empty_document_iff d
  · intro hemp
    rcases parse_ok_cases prs d p ctx prs2 h with ⟨_, rfl⟩ | ⟨hne, line, _, rfl⟩
    · rfl
    · rw [hie, hne] at hemp
      exact Bool.noConfusion hemp

/-- C7 witness: the theorem applied to the empty document. -/
theorem C7_empty_witness :
    (XmlContextParser.parse {} ⟨""⟩ ⟨0, 0⟩
        = (Except.ok { is_empty := true }, { _document := some ⟨""⟩ })) ∧
    ((({ is_empty := true } : XmlContext).is_empty = true ↔
        (pyStrip (Document.mk "").source.toList).length < 2) ∧
      (({ is_empty := true } : XmlContext).is_empty = true →
        ({ is_empty := true } : XmlContext) = { is_empty := true })) :=
  ⟨rfl, C7_is_empty_iff_trimmed_short {} ⟨""⟩ ⟨0, 0⟩ { is_empty := true }
    { _document := some ⟨""⟩ } rfl⟩

/-- C8: the claim says a failed name lookup never leaves `schemaNode`
absent.  False: for `<a>` with the cursor on the tag, the ancestor stack
is `["a"]` and the lookup fails, and the returned `node` is absent
(`except IndexError` only covers the empty-stack access, not a `None`
lookup result). -/
theorem C8_counterexample :
    ((XmlContextService.get_xml_context demoService ⟨"<a>"⟩ ⟨0, 1⟩).1.toOption.map
        (fun ctx => (ctx.node_stack, ctx.node))) = some (["a"], none) := rfl

/-- C8 (amended): after a successful resolution, if the ancestor stack
is empty the schema node is the Schema Index's root handle; if it is
non-empty the schema node is exactly the raw lookup result for its last
(innermost) name — absent whenever that lookup fails. -/
theorem C8_schema_node_attachment (svc : XmlContextService) (d : Document) (p : Position)
    (ctx : XmlContext) (s : XmlContextService)
    (h : svc.get_xml_context d p = (Except.ok ctx, s)) :
    (ctx.node_stack = [] → ctx.node = some svc.xsd_tree.root) ∧
    (∀ last, ctx.node_stack.getLast? = some last →
      ctx.node = svc.xsd_tree.find_node_by_name last) := by
  obtain ⟨c0, prs2, hp, hctx⟩ := get_xml_context_ok_elim svc d p ctx s h
  have hstack : ctx.node_stack = c0.node_stack := by
    rw [hctx]
    exact (update_node_definition_preserves c0 svc.xsd_tree).2.2.2.2.2
  have hnode := update_node_definition_node c0 svc.xsd_tree
  constructor
  · intro hnil
    have hc0 : c0.node_stack = [] := by rw [← hstack]; exact hnil
    rw [hctx, hnode, hc0]
    rfl
  · intro last hlast
    rw [hstack] at hlast
    rw [hctx, hnode, hlast]

/-- C8 witness: the theorem applied to a document with no elements, so
the stack is empty and the root handle is attached. -/
theorem C8_empty_stack_witness :
    (XmlContextService.get_xml_context demoService ⟨"hi"⟩ ⟨0, 0⟩
        = (Except.ok { document_line := "hi", node := some demoNode }, demoService)) ∧
    ((({ document_line := "hi", node := some demoNode } : XmlContext).node_stack = [] →
        ({ document_line := "hi", node := some demoNode } : XmlContext).node
          = some demoService.xsd_tree.root) ∧
      (∀ last, ({ document_line := "hi", node := some demoNode } :
            XmlContext).node_stack.getLast? = some last →
        ({ document_line := "hi", node := some demoNode } : XmlContext).node
          = demoService.xsd_tree.find_node_by_name last)) :=
  ⟨rfl, C8_schema_node_attachment demoService ⟨"hi"⟩ ⟨0, 0⟩ _ _ rfl⟩

/-- C9: two successive calls with the identical document and position
return equal results (hence structurally equal contexts on the success
path), and the service state after the second call is the original one:
each call builds a fresh parser and a fresh context, and the service
object itself is never written. -/
theorem C9_successive_calls_equal (svc : XmlContextService) (d : Document) (p : Position)
    (r1 r2 : Except PyError XmlContext) (s1 s2 : XmlContextService)
    (h1 : svc.get_xml_context d p = (r1, s1))
    (h2 : s1.get_xml_context d p = (r2, s2)) :
    r1 = r2 ∧ s2 = svc := by
  rw [get_xml_context_eq] at h1
  simp only [Prod.mk.injEq] at h1
  obtain ⟨hr1, hs1⟩ := h1
  subst hs1
  rw [get_xml_context_eq] at h2
  simp only [Prod.mk.injEq] at h2
  obtain ⟨hr2, hs2⟩ := h2
  exact ⟨hr1.symm.trans hr2, hs2.symm⟩

/-- C9 witness: the theorem applied twice to `<a>` at the cursor on the
tag name. -/
theorem C9_witness :
    ((XmlContextService.get_xml_context demoService ⟨"<a>"⟩ ⟨0, 1⟩).1
      = ((XmlContextService.get_xml_context demoService ⟨"<a>"⟩ ⟨0, 1⟩).2.get_xml_context
          ⟨"<a>"⟩ ⟨0, 1⟩).1) ∧
    ((XmlContextService.get_xml_context demoService ⟨"<a>"⟩ ⟨0, 1⟩).2.get_xml_context
        ⟨"<a>"⟩ ⟨0, 1⟩).2 = demoService :=
  C9_successive_calls_equal demoService ⟨"<a>"⟩ ⟨0, 1⟩ _ _ _ _ rfl rfl

/-- C10: every successfully returned context satisfies the two spec
invariants — a non-`UNKNOWN` `token_type` implies a present `token_name`
(vacuously, since `token_type` is always `UNKNOWN`), and `is_empty`
implies `token_type = UNKNOWN` with `token_name` absent. -/
theorem C10_result_invariants (svc : XmlContextService) (d : Document) (p : Position)
    (ctx : XmlContext) (s : XmlContextService)
    (h : svc.get_xml_context d p = (Except.ok ctx, s)) :
    (ctx.token_type ≠ ContextTokenType.UNKNOWN → ctx.token_name ≠ none) ∧
    (ctx.is_empty = true → ctx.token_type = ContextTokenType.UNKNOWN ∧
      ctx.token_name = none) := by
  have ht := get_ok_token_type_unknown svc d p ctx s h
  obtain ⟨c0, prs2, hp, hctx⟩ := get_xml_context_ok_elim svc d p ctx s h
  constructor
  · intro hne
    exact absurd ht hne
  · intro hie
    refine ⟨ht, ?_⟩
    rcases parse_ok_cases {} d p c0 prs2 hp with ⟨_, rfl⟩ | ⟨hne, line, _, rfl⟩
    · rw [hctx]
      exact (update_node_definition_preserves _ svc.xsd_tree).2.2.2.1
    · have hfalse : ctx.is_empty = false := by
        rw [hctx, (update_node_definition_preserves _ svc.xsd_tree).2.2.1,
          parse_ok_is_empty {} d p _ prs2 hp]
        exact hne
      rw [hfalse] at hie
      exact Bool.noConfusion hie

/-- C10 witness: the theorem applied to the empty document, where the
`is_empty` hypothesis of the second invariant actually fires. -/
theorem C10_witness :
    (XmlContextService.get_xml_context demoService ⟨""⟩ ⟨0, 0⟩
        = (Except.ok { is_empty := true, node := some demoNode }, demoService)) ∧
    ((({ is_empty := true, node := some demoNode } : XmlContext).token_type
          ≠ ContextTokenType.UNKNOWN →
        ({ is_empty := true, node := some demoNode } : XmlContext).token_name ≠ none) ∧
      (({ is_empty := true, node := some demoNode } : XmlContext).is_empty = true →
        ({ is_empty := true, node := some demoNode } : XmlContext).token_type
            = ContextTokenType.UNKNOWN ∧
          ({ is_empty := true, node := some demoNode } : XmlContext).token_name = none)) :=
  ⟨rfl, C10_result_invariants demoService ⟨""⟩ ⟨0, 0⟩ _ _ rfl⟩
